import Mathlib

/-!
Shallow embedding of the `multi-check` directive
(src: workbench directive source, functions `findItemIndex`,
`attachItemElements`, `clearItemElements`, `checkSelectedItems`, `link`).

The render surface (the children of the `ul.multi-check__list` element) is
modelled as a `List RenderNode`; each `RenderNode` stands for one `li`
together with the checkbox `input` and `label` that the code places inside
it.  JavaScript arrays bound on the scope are modelled by `JsArr` so that
the `Array.isArray` guards of the code can be translated; machine state the
handlers mutate in place (the DOM list, `scope.selected`) is passed and
returned explicitly.  Thrown JavaScript exceptions are modelled with
`Except JsError`.
-/

namespace MultiCheck

/-- One rendered row: the `li` element created by `attachItemElements`.
`identifier` is the expando property `itemElement.identifier` the code
assigns from `randomHex()`; note the code never writes
`itemElement.dataset.identifier` (no `data-identifier` attribute), so every
row's `dataset.identifier` is `undefined` — see `findItemIndex`.
`value` and `checked` are the fields of the row's checkbox input;
`displayText` is the label text. -/
structure RenderNode where
  identifier : String
  value : String
  checked : Bool
  displayText : String
deriving DecidableEq

/-- One entry of the `available` array.  The code accepts two external
representations, discriminated by `isObject(item)` (from
`lib/core-toolkit.js`, outside `src/`; per the spec an Item is either a
bare string, with value equal to display text, or an explicit pair):
`obj` models `{nodeValue, displayText}` and `str` a bare string. -/
inductive CatalogItem where
  | obj (nodeValue displayText : String)
  | str (s : String)
deriving DecidableEq

/-- A scope binding that may or may not be a JavaScript array, so that the
`Array.isArray` checks of the code can be expressed. -/
inductive JsArr (α : Type) where
  | arr (elems : List α)
  | nonArray
deriving DecidableEq

/-- A thrown JavaScript exception.  The only one this code can raise is the
`TypeError` from reading a property of `undefined`. -/
inductive JsError where
  | typeError
deriving DecidableEq

/-- `Array.prototype.indexOf` on an array of strings: the index of the
first occurrence, or `-1` when absent. -/
def jsIndexOf : List String → String → Int
  | [], _ => -1
  | x :: xs, v =>
    if x = v then 0
    else
      let r := jsIndexOf xs v
      if r < 0 then -1 else r + 1

/-- `Array.prototype.splice(start, deleteCount)` restricted to the shape the
code uses (`splice(position, 1)` with a non-negative position): removes
`deleteCount` elements starting at `start`. -/
def jsSplice (l : List String) (start deleteCount : Nat) : List String :=
  l.take start ++ l.drop (start + deleteCount)

/-- The value half of the destructuring
`let ⦃nodeValue, displayText⦄ = isObject(item) ? item : ⦃nodeValue: item, displayText: item⦄`. -/
def itemValue : CatalogItem → String
  | .obj v _ => v
  | .str s => s

/-- The display half of the same destructuring. -/
def itemText : CatalogItem → String
  | .obj _ d => d
  | .str s => s

/-- Modelled from the spec: `randomHex` lives in `lib/core-toolkit.js`,
which is not under `src/`; the spec only requires a stable opaque
identifier generated once per node, so the generator is modelled as an
injective supply indexed by a counter threaded through the build. -/
def idGen (n : Nat) : String := toString n

/-- The body of the `for (let item of available)` loop of
`attachItemElements` for one `item`: destructure the item, create the
`li`/`input`/`label` nodes, set `itemElement.identifier = randomHex()`,
set `inputElement.type`/`value`, and set `checked` to true when
`selected.indexOf(nodeValue) >= 0` (it is created unchecked otherwise). -/
def mkRenderNode (item : CatalogItem) (selected : List String) (id : String) : RenderNode :=
  { identifier := id
    value := itemValue item
    checked := decide (0 ≤ jsIndexOf selected (itemValue item))
    displayText := itemText item }

/-- `attachItemElements(listElement, available, selected)`: appends one row
per item of `available`, in order, to the children of `listElement`.
Returns the resulting child list together with the next counter of the
identifier supply.  (The JavaScript function returns the `available`
array itself; its caller only reads `items.length`, which we take from
`available` directly.) -/
def attachItemElements :
    List RenderNode → List CatalogItem → List String → Nat → List RenderNode × Nat
  | surface, [], _, k => (surface, k)
  | surface, item :: rest, selected, k =>
    attachItemElements (surface ++ [mkRenderNode item selected (idGen k)]) rest selected (k + 1)

/-- `clearItemElements(listElement)`:
`while (listElement.firstChild !== null) listElement.removeChild(listElement.lastChild)`.
Each iteration removes the last child while any child remains.  (The
JavaScript function also returns a `length` counter that is declared
`const length = 0` and never updated, so it always returns `0`; no claim
concerns that value.) -/
def clearItemElements (surface : List RenderNode) : List RenderNode :=
  match surface with
  | [] => []
  | x :: rest => clearItemElements ((x :: rest).dropLast)
termination_by surface.length
decreasing_by simp [List.length_dropLast]

/-- `checkSelectedItems(listElement, selected)`: for each child, look up its
checkbox input and set `checked = true` when
`selected.indexOf(inputElement.value) >= 0`.  There is no `else` branch:
the function never sets `checked` to `false`.  (Its `counter` return value
is declared `let counter = 0` and never incremented; no claim concerns it.) -/
def checkSelectedItems (surface : List RenderNode) (selected : List String) : List RenderNode :=
  surface.map fun child =>
    if 0 ≤ jsIndexOf selected child.value then { child with checked := true } else child

/-- The guard of `onSelectedListUpdated`:
`!Array.isArray(previous) || current.length !== previous.length`. -/
def selectedPassRuns (current : List String) : JsArr String → Bool
  | .nonArray => true
  | .arr prev => decide (current.length ≠ prev.length)

/-- The `onSelectedListUpdated(current, previous)` watch listener: when the
guard holds it re-marks the surface with `checkSelectedItems`, otherwise it
returns `false` leaving the surface alone.  The surface is the listener's
only effect the claims mention, so the model returns the resulting
surface. -/
def onSelectedListUpdated (surface : List RenderNode) (current : List String)
    (previous : JsArr String) : List RenderNode :=
  if selectedPassRuns current previous then checkSelectedItems surface current else surface

/-- The rebuild guard of `onAvailableListUpdated`:
`!Array.isArray(previous) || current.length !== previous.length`. -/
def availRebuilds (current : List CatalogItem) : JsArr CatalogItem → Bool
  | .nonArray => true
  | .arr prev => decide (current.length ≠ prev.length)

/-- The `onAvailableListUpdated(current, previous)` watch listener:
unconditionally `clearItemElements` first; then return `false` if `current`
is not an array or is empty; then, when the rebuild guard holds,
`attachItemElements(listElement, current, scope.selected)` and return
`items.length >= 1`; otherwise return `false`.  Result: the new surface,
the listener's return value, and the next identifier counter. -/
def onAvailableListUpdated (selected : List String) (surface : List RenderNode)
    (current previous : JsArr CatalogItem) (k : Nat) : List RenderNode × Bool × Nat :=
  let cleared := clearItemElements surface
  match current with
  | .nonArray => (cleared, false, k)
  | .arr items =>
    if items.length = 0 then (cleared, false, k)
    else if availRebuilds items previous then
      let built := attachItemElements cleared items selected k
      (built.1, decide (items.length ≥ 1), built.2)
    else (cleared, false, k)

/-- The `target` of a click event inside the list: its tag name (`INPUT`
for the checkbox inputs, `LABEL`/`LI`/`UL` for the other elements the
widget renders), and — meaningful when it is an input — its `checked`
state after the browser applied the click toggle, and its `value`. -/
structure ClickTarget where
  nodeName : String
  checked : Bool
  value : String
deriving DecidableEq

/-- The keys produced by `for (let child in listElement.children)`: a
`for...in` loop enumerates property KEYS, which for an `HTMLCollection`
with `n` elements are the strings `"0" … "n-1"` (WebIDL also makes the
prototype members `length`/`item`/`namedItem` enumerable; they are omitted
here, which only matters for an empty collection, a case no claim reaches,
and they too would be plain strings in the loop below). -/
def forInKeys (n : Nat) : List String := (List.range n).map toString

/-- The loop of `findItemIndex`.  Each iteration first evaluates
`child.dataset.identifier`; `child` is a for-in KEY, i.e. a string such as
`"0"`, and a string has no `dataset` property, so `child.dataset` is
`undefined` and reading `.identifier` of `undefined` throws a `TypeError`
before the comparison or the `index++` can run.  Only an empty key list
reaches the `return index` after the loop. -/
def findItemIndexLoop : List String → Nat → Except JsError Nat
  | [], index => .ok index
  | _child :: _, _ => .error .typeError

/-- `findItemIndex(listElement, inputElement)`: reads
`inputElement.closest(li).dataset.identifier` — which is `undefined`,
since `attachItemElements` stores the identifier as the element property
`itemElement.identifier`, never as a `data-` attribute — then runs the
for-in loop over the children's keys with `index` starting at `0`. -/
def findItemIndex (children : List RenderNode) (_input : ClickTarget) : Except JsError Nat :=
  findItemIndexLoop (forInKeys children.length) 0

/-- The click listener registered on the list element: ignore targets whose
`nodeName` is not `INPUT` (returning `false`, a value the DOM discards);
on a now-checked input, `scope.selected.push(target.value)`; on a
now-unchecked input, `scope.selected.splice(findItemIndex(...), 1)`.  The
model returns the resulting `scope.selected`, or the exception thrown. -/
def clickListener (surface : List RenderNode) (selected : List String)
    (target : ClickTarget) : Except JsError (List String) :=
  if target.nodeName ≠ "INPUT" then .ok selected
  else if target.checked then .ok (selected ++ [target.value])
  else
    match findItemIndex surface target with
    | .error e => .error e
    | .ok position => .ok (jsSplice selected position 1)

/-- The state `link` builds when it does not refuse: one click listener on
the list element, the two `scope.$watch` registrations, and the (initially
empty) render surface inside the template's `ul`. -/
structure LinkedState where
  clickListeners : Nat
  watchedExpressions : List String
  surface : List RenderNode
deriving DecidableEq

/-- `link(scope, element)`: returns `false` (here `none`) when
`!Array.isArray(scope.selected) || !Array.isArray(scope.available)`,
before any listener, watch or node exists; otherwise wires the click
listener and the `selected`/`available` watches over the empty list. -/
def link (selectedV : JsArr String) (availableV : JsArr CatalogItem) : Option LinkedState :=
  match selectedV, availableV with
  | .arr _, .arr _ =>
    some { clickListeners := 1
           watchedExpressions := ["selected", "available"]
           surface := [] }
  | _, _ => none

/-- Nodes appended by one `attachItemElements` run starting at counter `k`. -/
def builtNodes (items : List CatalogItem) (selected : List String) (k : Nat) : List RenderNode :=
  match items with
  | [] => []
  | item :: rest => mkRenderNode item selected (idGen k) :: builtNodes rest selected (k + 1)

theorem jsIndexOf_nonneg_iff (l : List String) (v : String) : 0 ≤ jsIndexOf l v ↔ v ∈ l := by
  induction l with
  | nil => simp [jsIndexOf]
  | cons x xs ih =>
    by_cases hx : x = v
    · simp [jsIndexOf, hx]
    · simp only [jsIndexOf, hx, if_false, List.mem_cons]
      by_cases hr : jsIndexOf xs v < 0
      · simp only [hr, if_true]
        constructor
        · intro h; omega
        · intro h
          rcases h with h | h
          · exact absurd h.symm hx
          · rw [← ih] at h; omega
      · simp only [hr, if_false]
        constructor
        · intro _
          right
          rw [← ih]
          omega
        · intro _
          omega

theorem clearItemElements_bounded :
    ∀ (n : Nat) (l : List RenderNode), l.length ≤ n → clearItemElements l = [] := by
  intro n
  induction n with
  | zero =>
    intro l hl
    have hnil : l = [] := List.eq_nil_of_length_eq_zero (Nat.le_zero.mp hl)
    subst hnil
    simp [clearItemElements]
  | succ n ih =>
    intro l hl
    cases l with
    | nil => simp [clearItemElements]
    | cons x rest =>
      rw [clearItemElements]
      apply ih
      simp only [List.length_dropLast, List.length_cons] at *
      omega

theorem clearItemElements_eq_nil (l : List RenderNode) : clearItemElements l = [] :=
  clearItemElements_bounded l.length l (Nat.le_refl _)

theorem attachItemElements_fst (items : List CatalogItem) :
    ∀ (surface : List RenderNode) (selected : List String) (k : Nat),
      (attachItemElements surface items selected k).1
        = surface ++ builtNodes items selected k := by
  induction items with
  | nil => intro s sel k; simp [attachItemElements, builtNodes]
  | cons item rest ih =>
    intro s sel k
    rw [attachItemElements, builtNodes, ih]
    simp

theorem builtNodes_map_value (selected : List String) (items : List CatalogItem) :
    ∀ k : Nat, (builtNodes items selected k).map RenderNode.value = items.map itemValue := by
  induction items with
  | nil => intro k; simp [builtNodes]
  | cons item rest ih => intro k; simp [builtNodes, mkRenderNode, ih]

theorem builtNodes_map_text (selected : List String) (items : List CatalogItem) :
    ∀ k : Nat, (builtNodes items selected k).map RenderNode.displayText = items.map itemText := by
  induction items with
  | nil => intro k; simp [builtNodes]
  | cons item rest ih => intro k; simp [builtNodes, mkRenderNode, ih]

theorem builtNodes_map_checked (selected : List String) (items : List CatalogItem) :
    ∀ k : Nat, (builtNodes items selected k).map RenderNode.checked
      = items.map fun item => decide (itemValue item ∈ selected) := by
  induction items with
  | nil => intro k; simp [builtNodes]
  | cons item rest ih =>
    intro k
    simp only [builtNodes, mkRenderNode, List.map_cons, ih]
    congr 1
    exact decide_eq_decide.mpr (jsIndexOf_nonneg_iff selected (itemValue item))

theorem builtNodes_length (selected : List String) (items : List CatalogItem) (k : Nat) :
    (builtNodes items selected k).length = items.length := by
  have h := builtNodes_map_value selected items k
  calc (builtNodes items selected k).length
      = ((builtNodes items selected k).map RenderNode.value).length := by simp
    _ = (items.map itemValue).length := by rw [h]
    _ = items.length := by simp

theorem checkSelectedItems_eq_map (surface : List RenderNode) (selected : List String) :
    checkSelectedItems surface selected
      = surface.map fun n => if n.value ∈ selected then { n with checked := true } else n := by
  unfold checkSelectedItems
  induction surface with
  | nil => simp
  | cons x rest ih =>
    simp only [List.map_cons, ih]
    congr 1
    by_cases hm : x.value ∈ selected
    · rw [if_pos hm, if_pos ((jsIndexOf_nonneg_iff selected x.value).mpr hm)]
    · rw [if_neg hm, if_neg (fun hc => hm ((jsIndexOf_nonneg_iff selected x.value).mp hc))]

theorem onAvailableListUpdated_equal_length (selected : List String)
    (surface : List RenderNode) (items prev : List CatalogItem) (k : Nat)
    (h : items.length = prev.length) :
    onAvailableListUpdated selected surface (.arr items) (.arr prev) k = ([], false, k) := by
  unfold onAvailableListUpdated
  rw [clearItemElements_eq_nil]
  by_cases hz : items.length = 0
  · simp [hz]
  · have hreb : availRebuilds items (.arr prev) = false := by
      simp [availRebuilds, h]
    simp [hz, hreb]

/-- Claim C1 counterexample: an ItemCatalog notification with a previous
snapshot of the same length (both singletons) on a surface holding one
node does NOT leave the render surface untouched — the node count drops
from one to zero, because the handler tears everything down first and the
equal-length guard then skips the rebuild. -/
theorem equal_length_catalog_update_not_untouched :
    (onAvailableListUpdated [] [⟨"7", "a", true, "a"⟩]
        (JsArr.arr [CatalogItem.str "a"]) (JsArr.arr [CatalogItem.str "b"]) 0).1
      ≠ [⟨"7", "a", true, "a"⟩] := by
  rw [onAvailableListUpdated_equal_length [] [⟨"7", "a", true, "a"⟩]
    [CatalogItem.str "a"] [CatalogItem.str "b"] 0 (by decide)]
  decide

/-- Claim C1, amended: for every ItemCatalog change notification where the
previous snapshot is a proper array and the lengths are equal, the handler
empties the render surface (unconditional teardown, rebuild skipped) and
reports `false`; the surface is untouched only when it was already empty. -/
theorem equal_length_catalog_update_empties_surface (selected : List String)
    (surface : List RenderNode) (items prev : List CatalogItem) (k : Nat)
    (h : items.length = prev.length) :
    onAvailableListUpdated selected surface (.arr items) (.arr prev) k = ([], false, k) :=
  onAvailableListUpdated_equal_length selected surface items prev k h

/-- Witness for C1's amended theorem at a concrete equal-length transition. -/
theorem equal_length_catalog_update_empties_surface_w :
    ([CatalogItem.str "a"] : List CatalogItem).length
        = ([CatalogItem.str "b"] : List CatalogItem).length
    ∧ onAvailableListUpdated [] [⟨"7", "a", true, "a"⟩]
        (JsArr.arr [CatalogItem.str "a"]) (JsArr.arr [CatalogItem.str "b"]) 0 = ([], false, 0) :=
  ⟨by decide,
    equal_length_catalog_update_empties_surface [] [⟨"7", "a", true, "a"⟩]
      [CatalogItem.str "a"] [CatalogItem.str "b"] 0 (by decide)⟩

/-- Claim C2 counterexample: a SelectionSet notification with a length
change (previous had one entry, current is empty) over a surface whose
single node is checked with value `a` leaves that node checked, although
`a` is not a member of the new SelectionSet — the re-marking pass never
unchecks, so checked does not equal membership. -/
theorem remark_pass_not_membership_exact :
    ¬ (∀ n ∈ onSelectedListUpdated [⟨"7", "a", true, "a"⟩] [] (JsArr.arr ["a"]),
        n.checked = decide (n.value ∈ ([] : List String))) := by
  decide

/-- Claim C2, amended: for every SelectionSet change notification in which
previous is absent (not an array) or the lengths differ, the re-marking
pass sets the checked flag of every rendered node whose value is in the
new SelectionSet to true, and leaves every other node exactly as it was —
in particular a previously checked node whose value left the SelectionSet
remains checked (the pass never unchecks). -/
theorem remark_pass_sets_members_keeps_others (surface : List RenderNode)
    (current : List String) (previous : JsArr String)
    (h : selectedPassRuns current previous = true) :
    onSelectedListUpdated surface current previous
      = surface.map fun n => if n.value ∈ current then { n with checked := true } else n := by
  unfold onSelectedListUpdated
  rw [h]
  simp only [if_true]
  exact checkSelectedItems_eq_map surface current

/-- Witness for C2's amended theorem at a concrete length-changing
transition. -/
theorem remark_pass_sets_members_keeps_others_w :
    selectedPassRuns ["b"] JsArr.nonArray = true
    ∧ onSelectedListUpdated [⟨"7", "a", true, "a"⟩, ⟨"8", "b", false, "b"⟩] ["b"] JsArr.nonArray
      = ([⟨"7", "a", true, "a"⟩, ⟨"8", "b", false, "b"⟩] : List RenderNode).map
          fun n => if n.value ∈ ["b"] then { n with checked := true } else n :=
  ⟨by decide,
    remark_pass_sets_members_keeps_others [⟨"7", "a", true, "a"⟩, ⟨"8", "b", false, "b"⟩]
      ["b"] JsArr.nonArray (by decide)⟩

/-- Claim C3, code evaluation: every uncheck click on a rendered row (an
`INPUT` target that is now unchecked, over a non-empty surface) throws a
`TypeError` inside `findItemIndex` — the `for...in` loop iterates string
KEYS of `listElement.children`, a string has no `dataset` property, and
reading `.identifier` of `undefined` throws — so the `splice` never runs
and SelectionSet is left unchanged instead of losing one entry. -/
theorem uncheck_click_throws_typeError (surface : List RenderNode)
    (selected : List String) (target : ClickTarget)
    (hne : surface ≠ []) (hn : target.nodeName = "INPUT") (hc : target.checked = false) :
    clickListener surface selected target = Except.error JsError.typeError := by
  unfold clickListener
  rw [hn, hc]
  simp only [ne_eq, not_true_eq_false, if_false, Bool.false_eq_true]
  have hlen : surface.length ≠ 0 := fun h0 => hne (List.eq_nil_of_length_eq_zero h0)
  unfold findItemIndex forInKeys
  cases hsl : surface.length with
  | zero => exact absurd hsl hlen
  | succ m => simp [List.range_succ_eq_map, findItemIndexLoop]

/-- Witness for the C3 evaluation theorem: one rendered row with value `a`,
selection `[a]`, uncheck click on that row's checkbox. -/
theorem uncheck_click_throws_typeError_w :
    ([(⟨"7", "a", false, "a"⟩ : RenderNode)] ≠ [])
    ∧ (⟨"INPUT", false, "a"⟩ : ClickTarget).nodeName = "INPUT"
    ∧ (⟨"INPUT", false, "a"⟩ : ClickTarget).checked = false
    ∧ clickListener [⟨"7", "a", false, "a"⟩] ["a"] ⟨"INPUT", false, "a"⟩
        = Except.error JsError.typeError :=
  ⟨by decide, rfl, rfl,
    uncheck_click_throws_typeError [⟨"7", "a", false, "a"⟩] ["a"] ⟨"INPUT", false, "a"⟩
      (by decide) rfl rfl⟩

/-- Claim C4: for every ItemCatalog change notification with a non-empty
array `items` where previous is absent or the lengths differ, the surface
after reconciliation has exactly `items.length` nodes, one per item in
catalog order — same values and display texts in the same order — and each
node's checked flag is initialized to whether its value is a member of the
current SelectionSet. -/
theorem rebuild_renders_catalog_in_order_with_membership (selected : List String)
    (surface : List RenderNode) (items : List CatalogItem)
    (previous : JsArr CatalogItem) (k : Nat)
    (hne : items ≠ []) (hreb : availRebuilds items previous = true) :
    ((onAvailableListUpdated selected surface (.arr items) previous k).1).map RenderNode.value
        = items.map itemValue
    ∧ ((onAvailableListUpdated selected surface (.arr items) previous k).1).map
          RenderNode.displayText = items.map itemText
    ∧ ((onAvailableListUpdated selected surface (.arr items) previous k).1).map
          RenderNode.checked = items.map (fun item => decide (itemValue item ∈ selected))
    ∧ ((onAvailableListUpdated selected surface (.arr items) previous k).1).length
        = items.length := by
  have hz : ¬ items.length = 0 := by
    intro h0
    exact hne (List.eq_nil_of_length_eq_zero h0)
  have hres : (onAvailableListUpdated selected surface (.arr items) previous k).1
      = builtNodes items selected k := by
    unfold onAvailableListUpdated
    rw [clearItemElements_eq_nil]
    simp only [hz, if_false, hreb, if_true]
    rw [attachItemElements_fst]
    simp
  rw [hres]
  exact ⟨builtNodes_map_value selected items k, builtNodes_map_text selected items k,
    builtNodes_map_checked selected items k, builtNodes_length selected items k⟩

/-- Witness for C4 at a concrete first-run rebuild: two items (a bare
string and an explicit pair), selection `[b]`. -/
theorem rebuild_renders_catalog_in_order_with_membership_w :
    ([CatalogItem.str "a", CatalogItem.obj "b" "B"] ≠ ([] : List CatalogItem))
    ∧ availRebuilds [CatalogItem.str "a", CatalogItem.obj "b" "B"] JsArr.nonArray = true
    ∧ (((onAvailableListUpdated ["b"] [] (.arr [CatalogItem.str "a", CatalogItem.obj "b" "B"])
            JsArr.nonArray 0).1).map RenderNode.value
          = [CatalogItem.str "a", CatalogItem.obj "b" "B"].map itemValue
        ∧ ((onAvailableListUpdated ["b"] [] (.arr [CatalogItem.str "a", CatalogItem.obj "b" "B"])
            JsArr.nonArray 0).1).map RenderNode.displayText
          = [CatalogItem.str "a", CatalogItem.obj "b" "B"].map itemText
        ∧ ((onAvailableListUpdated ["b"] [] (.arr [CatalogItem.str "a", CatalogItem.obj "b" "B"])
            JsArr.nonArray 0).1).map RenderNode.checked
          = [CatalogItem.str "a", CatalogItem.obj "b" "B"].map
              (fun item => decide (itemValue item ∈ ["b"]))
        ∧ ((onAvailableListUpdated ["b"] [] (.arr [CatalogItem.str "a", CatalogItem.obj "b" "B"])
            JsArr.nonArray 0).1).length
          = ([CatalogItem.str "a", CatalogItem.obj "b" "B"] : List CatalogItem).length) :=
  ⟨by decide, by decide,
    rebuild_renders_catalog_in_order_with_membership ["b"] []
      [CatalogItem.str "a", CatalogItem.obj "b" "B"] JsArr.nonArray 0 (by decide) (by decide)⟩

/-- Claim C5: a check click (an `INPUT` target whose post-toggle state is
checked) carrying value `v` appends `v` as the last element of
SelectionSet and changes nothing else: the result is exactly the old
SelectionSet with `v` appended. -/
theorem check_appends_value (surface : List RenderNode) (selected : List String)
    (target : ClickTarget) (hn : target.nodeName = "INPUT") (hc : target.checked = true) :
    clickListener surface selected target = Except.ok (selected ++ [target.value]) := by
  unfold clickListener
  rw [hn, hc]
  simp

/-- Witness for C5: checking the row with value `a` while `[b]` is
selected yields `[b, a]`. -/
theorem check_appends_value_w :
    (⟨"INPUT", true, "a"⟩ : ClickTarget).nodeName = "INPUT"
    ∧ (⟨"INPUT", true, "a"⟩ : ClickTarget).checked = true
    ∧ clickListener [⟨"7", "a", true, "a"⟩] ["b"] ⟨"INPUT", true, "a"⟩
        = Except.ok (["b"] ++ [(⟨"INPUT", true, "a"⟩ : ClickTarget).value]) :=
  ⟨rfl, rfl, check_appends_value [⟨"7", "a", true, "a"⟩] ["b"] ⟨"INPUT", true, "a"⟩ rfl rfl⟩

/-- Claim C6: a click whose target is not a checkbox control (its
`nodeName` is not `INPUT` — within this widget the only inputs rendered
are checkboxes) is silently ignored: no exception, SelectionSet
unchanged, nothing reported. -/
theorem non_input_target_ignored (surface : List RenderNode) (selected : List String)
    (target : ClickTarget) (h : target.nodeName ≠ "INPUT") :
    clickListener surface selected target = Except.ok selected := by
  unfold clickListener
  rw [if_pos h]

/-- Witness for C6: a click landing on a label element. -/
theorem non_input_target_ignored_w :
    (⟨"LABEL", false, "a"⟩ : ClickTarget).nodeName ≠ "INPUT"
    ∧ clickListener [⟨"7", "a", true, "a"⟩] ["a"] ⟨"LABEL", false, "a"⟩ = Except.ok ["a"] :=
  ⟨by decide, non_input_target_ignored [⟨"7", "a", true, "a"⟩] ["a"] ⟨"LABEL", false, "a"⟩
    (by decide)⟩

/-- Claim C7: when the bound `selected` or `available` is not a proper
array, `link` refuses to initialize: it reports failure (`none`) and no
partial state exists — no click listener, no watch, no rendered node. -/
theorem link_refuses_non_array_bindings (selectedV : JsArr String)
    (availableV : JsArr CatalogItem)
    (h : selectedV = JsArr.nonArray ∨ availableV = JsArr.nonArray) :
    link selectedV availableV = none := by
  rcases h with h | h
  · subst h; rfl
  · subst h
    unfold link
    cases selectedV <;> rfl

/-- Witness for C7: a non-array `selected` binding is refused. -/
theorem link_refuses_non_array_bindings_w :
    ((JsArr.nonArray : JsArr String) = JsArr.nonArray
        ∨ (JsArr.arr [] : JsArr CatalogItem) = JsArr.nonArray)
    ∧ link JsArr.nonArray (JsArr.arr []) = none :=
  ⟨Or.inl rfl, link_refuses_non_array_bindings JsArr.nonArray (JsArr.arr []) (Or.inl rfl)⟩

/-- Claim C8: an ItemCatalog notification whose `current` is empty or not
an array leaves the render surface empty (the unconditional teardown has
run), creates no nodes, keeps the identifier counter, and reports `false`
(the no-op). -/
theorem empty_or_non_array_catalog_noop (selected : List String)
    (surface : List RenderNode) (current previous : JsArr CatalogItem) (k : Nat)
    (h : current = JsArr.nonArray ∨ current = JsArr.arr []) :
    onAvailableListUpdated selected surface current previous k = ([], false, k) := by
  rcases h with h | h <;> subst h <;>
    · unfold onAvailableListUpdated
      rw [clearItemElements_eq_nil]
      try rfl

/-- Witness for C8: an empty `current` array over a one-node surface. -/
theorem empty_or_non_array_catalog_noop_w :
    ((JsArr.arr [] : JsArr CatalogItem) = JsArr.nonArray
        ∨ (JsArr.arr [] : JsArr CatalogItem) = JsArr.arr [])
    ∧ onAvailableListUpdated ["a"] [⟨"7", "a", true, "a"⟩] (JsArr.arr [])
        (JsArr.arr [CatalogItem.str "a"]) 3 = ([], false, 3) :=
  ⟨Or.inr rfl,
    empty_or_non_array_catalog_noop ["a"] [⟨"7", "a", true, "a"⟩] (JsArr.arr [])
      (JsArr.arr [CatalogItem.str "a"]) 3 (Or.inr rfl)⟩

/-- Claim C9: clearing is idempotent — clearing an empty surface is a
no-op (and, the model being total, cannot error), and clearing twice
equals clearing once: either way the surface is empty. -/
theorem clear_idempotent :
    clearItemElements ([] : List RenderNode) = []
    ∧ ∀ l : List RenderNode, clearItemElements (clearItemElements l) = clearItemElements l := by
  constructor
  · exact clearItemElements_eq_nil []
  · intro l
    rw [clearItemElements_eq_nil l, clearItemElements_eq_nil ([] : List RenderNode)]

/-- Claim C10: the re-marking pass is monotone in the checked direction —
for every SelectionSet notification, each rendered node that was checked
before the pass is still checked after it (the pass only ever sets the
flag to checked), whether or not its value is in the new SelectionSet. -/
theorem remark_pass_monotone_checked (surface : List RenderNode)
    (current : List String) (previous : JsArr String) :
    List.Forall₂ (fun (a b : RenderNode) => a.checked = true → b.checked = true)
      surface (onSelectedListUpdated surface current previous) := by
  unfold onSelectedListUpdated
  by_cases hp : selectedPassRuns current previous = true
  · rw [hp]
    simp only [if_true, checkSelectedItems]
    induction surface with
    | nil => exact List.Forall₂.nil
    | cons x rest ih =>
      refine List.Forall₂.cons ?_ ih
      intro hx
      by_cases hc : 0 ≤ jsIndexOf current x.value
      · simp [hc]
      · simp [hc, hx]
  · rw [Bool.not_eq_true] at hp
    rw [hp]
    simp only [Bool.false_eq_true, if_false]
    exact List.forall₂_same.mpr fun a _ ha => ha

end MultiCheck
